import Mathlib

/-!
Verification of the Omvyx Voice webhook bridge (`main.py`).

The repository exposes two HTTP endpoints: a constant health check and a
Retell webhook handler.  The handler parses a JSON body with optional
fields `call_id`, `event` and `transcript`, short-circuits on terminal
call-lifecycle events, extracts the last user utterance from the
transcript (falling back to the greeting trigger "Hola"), invokes an
external conversation engine, and extracts the last AI-typed message of
the engine's result as the reply.

We embed the handler as a pure function parameterized by the system
prompt (imported from `graph.workflow` in the source) and by the engine
(`graph.ainvoke`).  The second component of the result records the exact
input the engine was invoked with, or `none` when it was not invoked.
-/

/-- A transcript turn: a JSON object whose `role` and `content` keys may
each be absent (`turn.get("role")`, `turn.get("content", "")`). -/
structure Turn where
  role : Option String
  content : Option String
deriving DecidableEq, Repr

/-- A message in the engine's world (langchain message): whether it has a
`content` attribute (`hasattr(msg, "content")`), its `type` tag and its
content. -/
structure Msg where
  hasContent : Bool
  type : String
  content : String
deriving DecidableEq, Repr

/-- `HumanMessage(content=...)` from langchain: a message carrying content,
tagged as human. -/
def HumanMessage (s : String) : Msg :=
  { hasContent := true, type := "human", content := s }

/-- The JSON body of a webhook request; each field may be missing. -/
structure Body where
  call_id : Option String
  event : Option String
  transcript : Option (List Turn)
deriving DecidableEq, Repr

/-- The argument of `graph.ainvoke(input_state, config=config)`: the
`thread_id` from the config, and the `messages` and `call_id` of the
input state. -/
structure EngineInput where
  thread_id : String
  messages : List Msg
  call_id : String
deriving DecidableEq, Repr

/-- The engine result: a dict whose `messages` key may be absent
(`result.get("messages", [])`). -/
structure EngineResult where
  messages : Option (List Msg)
deriving DecidableEq, Repr

/-- The JSON response of the webhook handler.  The terminal-event branch
returns an object with exactly the keys `response_id` and `content`; the
active branch additionally carries `content_complete` and `end_call`. -/
inductive WebhookResponse where
  | terminal (response_id : String) (content : String)
  | active (response_id : String) (content : String)
      (content_complete : Bool) (end_call : Bool)
deriving DecidableEq, Repr

/-- The `response_id` field present in both response shapes. -/
def responseId : WebhookResponse → String
  | .terminal r _ => r
  | .active r _ _ _ => r

/-- The loop `for turn in reversed(transcript): if turn.get("role") ==
"user": user_text = turn.get("content", ""); break`, expressed on the
already-reversed list: the content (defaulted to `""`) of the first entry
whose role is `"user"`, or `""` if the scan falls through. -/
def lastUserText : List Turn → String
  | [] => ""
  | t :: rest => if t.role = some "user" then t.content.getD "" else lastUserText rest

/-- The loop `for msg in reversed(result.get("messages", [])): if
hasattr(msg, "content") and msg.type == "ai": agent_reply = msg.content;
break`, expressed on the already-reversed list. -/
def lastAiReply : List Msg → String
  | [] => ""
  | m :: rest =>
    if m.hasContent = true ∧ m.type = "ai" then m.content else lastAiReply rest

/-- The `POST /retell-webhook` handler.  `sysPrompt` stands for the
imported `SYSTEM_PROMPT` and `engine` for `graph.ainvoke` (with the
`thread_id` of the config and the fields of the input state bundled into
`EngineInput`).  Returns the JSON response together with the engine
invocation, `none` when the engine was never invoked. -/
def retell_webhook (sysPrompt : Msg) (engine : EngineInput → EngineResult)
    (body : Body) : WebhookResponse × Option EngineInput :=
  let call_id := body.call_id.getD "unknown"
  let event := body.event.getD ""
  if event = "call_ended" ∨ event = "call_analyzed" then
    (WebhookResponse.terminal call_id "", none)
  else
    let transcript := body.transcript.getD []
    let extracted := lastUserText transcript.reverse
    let user_text := if extracted = "" then "Hola" else extracted
    let input : EngineInput :=
      { thread_id := call_id
        messages := [sysPrompt, HumanMessage user_text]
        call_id := call_id }
    let result := engine input
    let agent_reply := lastAiReply (result.messages.getD []).reverse
    (WebhookResponse.active call_id agent_reply true false, some input)

/-- The `GET /health` handler: a constant association list
`{"status": "ok"}`; it reads no state, so we model it as a function of a
unit argument. -/
def health : Unit → List (String × String) :=
  fun _ => [("status", "ok")]

/-- Specification-side formulation: the first entry with role `"user"`
found scanning a list front to back (applied below to the reversed
transcript, this is "the last user-role entry"). -/
def lastUserTurn : List Turn → Option Turn
  | [] => none
  | t :: rest => if t.role = some "user" then some t else lastUserTurn rest

/-- Specification-side formulation: the first message with type tag
`"ai"` found scanning a list front to back (applied below to the reversed
message sequence, this is "the last AI message"). -/
def lastAiMsg : List Msg → Option Msg
  | [] => none
  | m :: rest => if m.type = "ai" then some m else lastAiMsg rest

/-- The user text the active path hands to the engine: the extracted last
user utterance, or `"Hola"` when that extraction is empty. -/
def engineUserText (transcript : List Turn) : String :=
  let extracted := lastUserText transcript.reverse
  if extracted = "" then "Hola" else extracted

/-- The exact engine input built by the active path of the handler. -/
def activeInput (sysPrompt : Msg) (b : Body) : EngineInput :=
  { thread_id := b.call_id.getD "unknown"
    messages := [sysPrompt, HumanMessage (engineUserText (b.transcript.getD []))]
    call_id := b.call_id.getD "unknown" }

/-- A concrete system prompt used to instantiate witnesses. -/
def sysMsg : Msg :=
  { hasContent := true, type := "system", content := "instructions" }

/-- A concrete engine returning a result without a `messages` key. -/
def noEngine : EngineInput → EngineResult :=
  fun _ => { messages := none }

/-- A concrete engine returning one AI message. -/
def aiEngine : EngineInput → EngineResult :=
  fun _ => { messages := some [{ hasContent := true, type := "ai", content := "hello" }] }

lemma retell_webhook_terminal (sys : Msg) (engine : EngineInput → EngineResult)
    (b : Body) (h : b.event.getD "" = "call_ended" ∨ b.event.getD "" = "call_analyzed") :
    retell_webhook sys engine b =
      (WebhookResponse.terminal (b.call_id.getD "unknown") "", none) := by
  simp only [retell_webhook]
  rw [if_pos h]

lemma retell_webhook_active (sys : Msg) (engine : EngineInput → EngineResult)
    (b : Body) (h1 : b.event.getD "" ≠ "call_ended")
    (h2 : b.event.getD "" ≠ "call_analyzed") :
    retell_webhook sys engine b =
      (WebhookResponse.active (b.call_id.getD "unknown")
        (lastAiReply ((engine (activeInput sys b)).messages.getD []).reverse)
        true false,
       some (activeInput sys b)) := by
  simp only [retell_webhook]
  rw [if_neg (not_or.mpr ⟨h1, h2⟩)]
  rfl

lemma lastUserText_eq (l : List Turn) :
    lastUserText l = ((lastUserTurn l).map fun t => t.content.getD "").getD "" := by
  induction l with
  | nil => rfl
  | cons t rest ih =>
    by_cases h : t.role = some "user" <;>
      simp [lastUserText, lastUserTurn, h, ih]

lemma lastAiReply_eq (l : List Msg) (h : ∀ m ∈ l, m.hasContent = true) :
    lastAiReply l = ((lastAiMsg l).map Msg.content).getD "" := by
  induction l with
  | nil => rfl
  | cons m rest ih =>
    have hm : m.hasContent = true := h m (List.mem_cons_self m rest)
    by_cases ht : m.type = "ai"
    · simp [lastAiReply, lastAiMsg, ht, hm]
    · simp [lastAiReply, lastAiMsg, ht, hm,
        ih fun x hx => h x (List.mem_cons_of_mem m hx)]

/-- C1: For every webhook request whose event field equals "call_ended" or
"call_analyzed", the handler returns exactly the two-key response
`(response_id = call_id, content = "")` — the terminal shape carrying no
`content_complete` or `end_call` — and the engine is never invoked. -/
theorem C1_terminal_short_circuit (sys : Msg) (engine : EngineInput → EngineResult)
    (b : Body)
    (h : b.event.getD "" = "call_ended" ∨ b.event.getD "" = "call_analyzed") :
    retell_webhook sys engine b =
      (WebhookResponse.terminal (b.call_id.getD "unknown") "", none) :=
  retell_webhook_terminal sys engine b h

/-- Witness for C1 at a concrete request. -/
theorem C1_terminal_short_circuit_witness :
    retell_webhook sysMsg aiEngine
        { call_id := some "abc", event := some "call_ended",
          transcript := some [{ role := some "user", content := some "hi" }] } =
      (WebhookResponse.terminal "abc" "", none) :=
  C1_terminal_short_circuit sysMsg aiEngine
    { call_id := some "abc", event := some "call_ended",
      transcript := some [{ role := some "user", content := some "hi" }] }
    (Or.inl rfl)

/-- C2 counterexample: a non-terminal request whose last user-role entry
has empty content.  The last user-role entry (the first found scanning
the reversed transcript) has content `""`, yet the text handed to the
engine is `"Hola"`, not that content — refuting the claim as stated. -/
theorem C2_counterexample :
    lastUserTurn ([{ role := some "user", content := some "" }] : List Turn).reverse =
        some { role := some "user", content := some "" } ∧
    (retell_webhook sysMsg aiEngine
        { call_id := some "c", event := some "call_started",
          transcript := some [{ role := some "user", content := some "" }] }).2 =
      some { thread_id := "c", messages := [sysMsg, HumanMessage "Hola"], call_id := "c" } ∧
    ("Hola" : String) ≠ "" := by
  refine ⟨rfl, rfl, ?_⟩
  decide

/-- C2 (amended): for every non-terminal-event request whose transcript
contains a user-role entry and whose last user-role entry (the first
found scanning in reverse) has NONEMPTY content, the text passed to the
engine is that entry's content, regardless of any earlier turns.  (The
original claim omitted the nonemptiness proviso; with empty content the
greeting "Hola" is passed instead, see the counterexample.) -/
theorem C2_last_user_text_forwarded (sys : Msg) (engine : EngineInput → EngineResult)
    (b : Body) (t : Turn)
    (h1 : b.event.getD "" ≠ "call_ended") (h2 : b.event.getD "" ≠ "call_analyzed")
    (hfind : lastUserTurn (b.transcript.getD []).reverse = some t)
    (hne : t.content.getD "" ≠ "") :
    (retell_webhook sys engine b).2 =
      some { thread_id := b.call_id.getD "unknown"
             messages := [sys, HumanMessage (t.content.getD "")]
             call_id := b.call_id.getD "unknown" } := by
  rw [retell_webhook_active sys engine b h1 h2]
  have hext : lastUserText (b.transcript.getD []).reverse = t.content.getD "" := by
    rw [lastUserText_eq, hfind]
    rfl
  simp [activeInput, engineUserText, hext, hne]

/-- Witness for C2 (amended): two user turns; the later one's content is
forwarded. -/
theorem C2_last_user_text_forwarded_witness :
    (retell_webhook sysMsg aiEngine
        { call_id := some "c", event := some "call_started",
          transcript := some
            [{ role := some "user", content := some "old" },
             { role := some "agent", content := some "mid" },
             { role := some "user", content := some "new" }] }).2 =
      some { thread_id := "c", messages := [sysMsg, HumanMessage "new"], call_id := "c" } :=
  C2_last_user_text_forwarded sysMsg aiEngine
    { call_id := some "c", event := some "call_started",
      transcript := some
        [{ role := some "user", content := some "old" },
         { role := some "agent", content := some "mid" },
         { role := some "user", content := some "new" }] }
    { role := some "user", content := some "new" }
    (by decide) (by decide) rfl (by decide)

/-- C3: for every non-terminal-event request whose last user-role entry
exists but has empty content (or a missing content key), the engine input
is the fixed greeting "Hola" rather than the empty content: the fallback
is triggered by empty extracted text, not only by the absence of a
user-role entry. -/
theorem C3_empty_content_greeting (sys : Msg) (engine : EngineInput → EngineResult)
    (b : Body) (t : Turn)
    (h1 : b.event.getD "" ≠ "call_ended") (h2 : b.event.getD "" ≠ "call_analyzed")
    (hfind : lastUserTurn (b.transcript.getD []).reverse = some t)
    (hempty : t.content.getD "" = "") :
    (retell_webhook sys engine b).2 =
      some { thread_id := b.call_id.getD "unknown"
             messages := [sys, HumanMessage "Hola"]
             call_id := b.call_id.getD "unknown" } := by
  rw [retell_webhook_active sys engine b h1 h2]
  have hext : lastUserText (b.transcript.getD []).reverse = "" := by
    rw [lastUserText_eq, hfind]
    simpa using hempty
  simp [activeInput, engineUserText, hext]

/-- Witness for C3: a user turn whose content key is missing. -/
theorem C3_empty_content_greeting_witness :
    (retell_webhook sysMsg aiEngine
        { call_id := some "c", event := some "call_started",
          transcript := some [{ role := some "user", content := none }] }).2 =
      some { thread_id := "c", messages := [sysMsg, HumanMessage "Hola"], call_id := "c" } :=
  C3_empty_content_greeting sysMsg aiEngine
    { call_id := some "c", event := some "call_started",
      transcript := some [{ role := some "user", content := none }] }
    { role := some "user", content := none }
    (by decide) (by decide) rfl rfl

/-- C4: for every non-terminal-event request whose transcript is absent,
empty, or contains no user-role entry, the engine IS invoked and receives
the fixed greeting-trigger text "Hola". -/
theorem C4_no_user_turn_greeting (sys : Msg) (engine : EngineInput → EngineResult)
    (b : Body)
    (h1 : b.event.getD "" ≠ "call_ended") (h2 : b.event.getD "" ≠ "call_analyzed")
    (hnone : lastUserTurn (b.transcript.getD []).reverse = none) :
    (retell_webhook sys engine b).2 =
      some { thread_id := b.call_id.getD "unknown"
             messages := [sys, HumanMessage "Hola"]
             call_id := b.call_id.getD "unknown" } := by
  rw [retell_webhook_active sys engine b h1 h2]
  have hext : lastUserText (b.transcript.getD []).reverse = "" := by
    rw [lastUserText_eq, hnone]
    rfl
  simp [activeInput, engineUserText, hext]

/-- Witness for C4: absent transcript. -/
theorem C4_no_user_turn_greeting_witness :
    (retell_webhook sysMsg aiEngine
        { call_id := some "c", event := some "call_started", transcript := none }).2 =
      some { thread_id := "c", messages := [sysMsg, HumanMessage "Hola"], call_id := "c" } :=
  C4_no_user_turn_greeting sysMsg aiEngine
    { call_id := some "c", event := some "call_started", transcript := none }
    (by decide) (by decide) rfl

/-- C5: for every non-terminal-event request, the response is exactly the
four-field shape `(response_id = call_id, content = agent_reply,
content_complete = true, end_call = false)`: `content_complete` is always
`true` and `end_call` always `false`. -/
theorem C5_active_response_shape (sys : Msg) (engine : EngineInput → EngineResult)
    (b : Body)
    (h1 : b.event.getD "" ≠ "call_ended") (h2 : b.event.getD "" ≠ "call_analyzed") :
    (retell_webhook sys engine b).1 =
      WebhookResponse.active (b.call_id.getD "unknown")
        (lastAiReply ((engine (activeInput sys b)).messages.getD []).reverse)
        true false := by
  rw [retell_webhook_active sys engine b h1 h2]

/-- Witness for C5: the end-to-end scenario of the spec,
`call_id = "abc"`, `event = "call_started"`, empty transcript. -/
theorem C5_active_response_shape_witness :
    (retell_webhook sysMsg aiEngine
        { call_id := some "abc", event := some "call_started", transcript := some [] }).1 =
      WebhookResponse.active "abc" "hello" true false :=
  C5_active_response_shape sysMsg aiEngine
    { call_id := some "abc", event := some "call_started", transcript := some [] }
    (by decide) (by decide)

/-- C6 counterexample: a request that explicitly carries
`call_id = "unknown"`.  The response's `response_id` equals the sentinel
`"unknown"` although the `call_id` field is present — refuting the
claim's "exactly when the request body has no call_id field". -/
theorem C6_counterexample :
    responseId (retell_webhook sysMsg aiEngine
        { call_id := some "unknown", event := some "call_started",
          transcript := some [] }).1 = "unknown" ∧
    (({ call_id := some "unknown", event := some "call_started",
        transcript := some [] } : Body).call_id ≠ none) := by
  refine ⟨rfl, ?_⟩
  decide

/-- C6 (amended): for every webhook request, the `response_id` of the
response equals the inbound `call_id` defaulted to `"unknown"`; so it is
`"unknown"` whenever the `call_id` field is absent, but also when the
field is present with the value `"unknown"` — the absence of `call_id`
is sufficient, not equivalent, for the sentinel. -/
theorem C6_response_id_echo (sys : Msg) (engine : EngineInput → EngineResult)
    (b : Body) :
    responseId (retell_webhook sys engine b).1 = b.call_id.getD "unknown" := by
  by_cases h : b.event.getD "" = "call_ended" ∨ b.event.getD "" = "call_analyzed"
  · rw [retell_webhook_terminal sys engine b h]
    rfl
  · push_neg at h
    rw [retell_webhook_active sys engine b h.1 h.2]
    rfl

/-- C7: for every engine result whose messages all carry a content
attribute, the reply returned as `content` is the content of the last
message whose type tag is `"ai"` (the first found scanning the sequence
in reverse), and the empty string when no such message exists or the
`messages` key is absent. -/
theorem C7_ai_reply_extraction (sys : Msg) (result : EngineResult) (b : Body)
    (h1 : b.event.getD "" ≠ "call_ended") (h2 : b.event.getD "" ≠ "call_analyzed")
    (hc : ∀ m ∈ result.messages.getD [], m.hasContent = true) :
    (retell_webhook sys (fun _ => result) b).1 =
      WebhookResponse.active (b.call_id.getD "unknown")
        (((lastAiMsg (result.messages.getD []).reverse).map Msg.content).getD "")
        true false := by
  rw [retell_webhook_active sys (fun _ => result) b h1 h2]
  rw [lastAiReply_eq]
  intro m hm
  exact hc m (List.mem_reverse.mp hm)

/-- Witness for C7: the result holds a human message after the AI one, so
the reverse scan returns the AI content "yes". -/
theorem C7_ai_reply_extraction_witness :
    (retell_webhook sysMsg
        (fun _ => { messages := some [{ hasContent := true, type := "human", content := "q" },
          { hasContent := true, type := "ai", content := "yes" },
          { hasContent := true, type := "human", content := "r" }] })
        { call_id := some "c", event := none, transcript := none }).1 =
      WebhookResponse.active "c" "yes" true false :=
  C7_ai_reply_extraction sysMsg
    { messages := some [{ hasContent := true, type := "human", content := "q" },
      { hasContent := true, type := "ai", content := "yes" },
      { hasContent := true, type := "human", content := "r" }] }
    { call_id := some "c", event := none, transcript := none }
    (by decide) (by decide) (by decide)

/-- C8: a missing `call_id`, `event` or `transcript` never makes the
handler fail: the handler (a total function here) behaves exactly as if
the body carried the defaults `"unknown"`, `""` and `[]` for its missing
fields, and produces a normal response. -/
theorem C8_missing_fields_default (sys : Msg) (engine : EngineInput → EngineResult)
    (b : Body) :
    retell_webhook sys engine b =
      retell_webhook sys engine
        { call_id := some (b.call_id.getD "unknown")
          event := some (b.event.getD "")
          transcript := some (b.transcript.getD []) } :=
  rfl

/-- C9: every event other than "call_ended"/"call_analyzed" — including
"call_started", the empty string, an unset event, or any other string —
is treated identically: two non-terminal requests differing only in
their event field yield the same result, the engine is invoked, and the
response is the four-field active shape. -/
theorem C9_event_irrelevance (sys : Msg) (engine : EngineInput → EngineResult)
    (b1 b2 : Body)
    (hc : b1.call_id = b2.call_id) (ht : b1.transcript = b2.transcript)
    (h1 : b1.event.getD "" ≠ "call_ended") (h2 : b1.event.getD "" ≠ "call_analyzed")
    (h3 : b2.event.getD "" ≠ "call_ended") (h4 : b2.event.getD "" ≠ "call_analyzed") :
    retell_webhook sys engine b1 = retell_webhook sys engine b2 ∧
    (retell_webhook sys engine b1).2 = some (activeInput sys b1) ∧
    (retell_webhook sys engine b1).1 =
      WebhookResponse.active (b1.call_id.getD "unknown")
        (lastAiReply ((engine (activeInput sys b1)).messages.getD []).reverse)
        true false := by
  have hin : activeInput sys b1 = activeInput sys b2 := by
    simp [activeInput, hc, ht]
  rw [retell_webhook_active sys engine b1 h1 h2,
    retell_webhook_active sys engine b2 h3 h4, hin, hc]
  exact ⟨rfl, by rw [← hin], rfl⟩

/-- Witness for C9: "call_started" versus an absent event field. -/
theorem C9_event_irrelevance_witness :
    retell_webhook sysMsg noEngine
        { call_id := some "c", event := some "call_started", transcript := some [] } =
      retell_webhook sysMsg noEngine
        { call_id := some "c", event := none, transcript := some [] } ∧
    (retell_webhook sysMsg noEngine
        { call_id := some "c", event := some "call_started", transcript := some [] }).2 =
      some (activeInput sysMsg
        { call_id := some "c", event := some "call_started", transcript := some [] }) ∧
    (retell_webhook sysMsg noEngine
        { call_id := some "c", event := some "call_started", transcript := some [] }).1 =
      WebhookResponse.active "c"
        (lastAiReply ((noEngine (activeInput sysMsg
          { call_id := some "c", event := some "call_started",
            transcript := some [] })).messages.getD []).reverse)
        true false :=
  C9_event_irrelevance sysMsg noEngine
    { call_id := some "c", event := some "call_started", transcript := some [] }
    { call_id := some "c", event := none, transcript := some [] }
    rfl rfl (by decide) (by decide) (by decide) (by decide)

/-- C10: every GET request to /health returns the constant body
`{"status": "ok"}`; the result depends on no state (any two calls agree)
and the endpoint is a total function with no failure mode. -/
theorem C10_health_constant :
    ∀ u v : Unit, health u = [("status", "ok")] ∧ health u = health v :=
  fun _ _ => ⟨rfl, rfl⟩
